import Mathlib

/-!
Verification of the movie-queue engine of `flexget/plugins/filter/movie_queue.py`:
identity resolution (`parse_what`), the queue store operations (`queue_add`,
`queue_del`, `queue_forget`, `queue_edit`, `queue_get`), the matching engine
(`MovieQueue.matches`) and the paginated listing API (`MovieQueueListAPI.get`).

The database table is embedded as a list of rows in insertion order; SQLAlchemy
queries become list filters, `.first()` becomes `List.find?`, `.one()` becomes a
match on the filtered list, and raised exceptions become an error sum type.
External collaborators that live outside the provided sources (the quality
grammar of `flexget.utils.qualities`, `extract_id` of `flexget.utils.imdb`, the
tmdb/imdb lookup plugins) are modelled from the spec, as noted on each one.
-/

namespace MovieQueue

/-- Modelled from the spec: the quality-requirement collaborator of
`flexget.utils.qualities` (not under the provided sources).  An opaque
requirement built from a string: `"any"` is the universal-accept default,
`"<n>p+"` accepts qualities ranked at least `n`. -/
inductive Requirements where
  | any : Requirements
  | atLeast : Nat → Requirements
deriving DecidableEq, Repr

/-- Observed qualities are modelled by their rank; an unknown/default quality
(`qualities.Quality()`) is rank 0. -/
def defaultQuality : Nat := 0

/-- Modelled from the spec: `Requirements.allows(observed_quality)` — `"any"`
allows every observed quality, `"<n>p+"` allows ranks `≥ n`. -/
def Requirements.allows : Requirements → Nat → Bool
  | .any, _ => true
  | .atLeast n, obs => decide (n ≤ obs)

/-- A row of the `movie_queue` table joined with its `queue` base row
(class `QueuedMovie`, fields of `queue_base.QueuedItem` taken from the spec's
data model and `QueuedMovie.to_dict`): surrogate id, display title, nullable
download timestamp, the three provenance fields, the two external ids and the
stored quality requirement. -/
structure QueuedMovie where
  id : Nat
  title : Option String
  downloaded : Option Nat
  entry_title : Option String
  entry_url : Option String
  entry_original_url : Option String
  imdb_id : Option String
  tmdb_id : Option String
  quality : Requirements
deriving DecidableEq, Repr

/-- Errors surfaced by the queue operations.  `queueError` is the module's
`QueueError` exception; `attributeError` is the `AttributeError` raised by
`what.startswith` when `parse_what` receives `None`; `multipleResultsFound` is
SQLAlchemy's `MultipleResultsFound` escaping uncaught. -/
inductive QueueErrorKind where
  | alreadyDownloaded
  | alreadyQueued
  | notFound
  | multipleResults
  | notDownloaded
  | lookupFailed
deriving DecidableEq, Repr

inductive Err where
  | queueError : QueueErrorKind → Err
  | attributeError : Err
  | multipleResultsFound : Err
deriving DecidableEq, Repr

/-- The canonical identity triple returned by `parse_what`. -/
structure Identity where
  title : Option String
  imdb_id : Option String
  tmdb_id : Option String
deriving DecidableEq, Repr

/-- Modelled from the spec: `extract_id` of `flexget.utils.imdb` (not under the
provided sources) — tests whether the hint embeds an external-id-a reference,
i.e. `tt` followed by seven digits, and returns the embedded id if so. -/
def imdbAt : List Char → Option (List Char)
  | 't' :: 't' :: rest =>
    let ds := rest.take 7
    if ds.length = 7 ∧ ds.all Char.isDigit then some ('t' :: 't' :: ds) else none
  | _ => none

def findImdb : List Char → Option (List Char)
  | [] => none
  | c :: rest =>
    match imdbAt (c :: rest) with
    | some r => some r
    | none => findImdb rest

def extract_id (what : String) : Option String :=
  (findImdb what.toList).map fun l => String.mk l

/-- The external metadata-lookup collaborator invoked by `parse_what` when
`lookup=True` (the `imdb_lookup`/`tmdb_lookup` plugins, outside the provided
sources): given the parsed partial identity it returns a completed identity, or
`none` when `movie_name` stays unresolved (the `KeyError` path). -/
def LookupFn : Type := Identity → Option Identity

/-- `parse_what(what, lookup=True)` (lines 232-275): `extract_id` first, then
the `tmdb_id=` syntax, else free-text title; then the collaborator lookup whose
failure becomes a `QueueError`.  A `None` hint reaches `what.startswith` and
raises `AttributeError`. -/
def parse_what (lookup : LookupFn) (what : Option String) : Except Err Identity :=
  match what with
  | none => .error .attributeError
  | some w =>
    let parsed : Identity :=
      match extract_id w with
      | some i => ⟨none, some i, none⟩
      | none =>
        if w.startsWith "tmdb_id=" then ⟨none, none, some (w.drop 8)⟩
        else ⟨some w, none, none⟩
    match lookup parsed with
    | some res => .ok res
    | none => .error (.queueError .lookupFailed)

/-- The dedup query predicate of `queue_add` (lines 303-305):
`or_(and_(imdb_id != None, imdb_id == imdb), and_(tmdb_id != None, tmdb_id == tmdb))`.
Note there is no filter on `downloaded`. -/
def addMatch (imdb tmdb : Option String) (e : QueuedMovie) : Bool :=
  (e.imdb_id.isSome && e.imdb_id == imdb) || (e.tmdb_id.isSome && e.tmdb_id == tmdb)

/-- The resolution step of `queue_add` (lines 295-300): when the title or both
ids are missing, delegate `imdb_id or title` to `parse_what`. -/
def resolveAdd (lookup : LookupFn) (title imdb tmdb : Option String) :
    Except Err Identity :=
  if title.isNone || (imdb.isNone && tmdb.isNone) then
    parse_what lookup (imdb <|> title)
  else .ok ⟨title, imdb, tmdb⟩

/-- `queue_add` (lines 279-315).  `nextId` stands for the store-assigned
surrogate id.  Returns the success payload (resolved identity plus the quality
requirement, defaulted to `any`) or the raised error, together with the table
after the transaction. -/
def queue_add (lookup : LookupFn) (nextId : Nat)
    (title imdb tmdb : Option String) (quality : Option Requirements)
    (q : List QueuedMovie) :
    Except Err (Identity × Requirements) × List QueuedMovie :=
  let qreq := quality.getD .any
  match resolveAdd lookup title imdb tmdb with
  | .error e => (.error e, q)
  | .ok ident =>
    match q.find? (addMatch ident.imdb_id ident.tmdb_id) with
    | none =>
      (.ok (ident, qreq),
        q ++ [⟨nextId, ident.title, none, none, none, none,
               ident.imdb_id, ident.tmdb_id, qreq⟩])
    | some item =>
      if item.downloaded.isSome then (.error (.queueError .alreadyDownloaded), q)
      else (.error (.queueError .alreadyQueued), q)

/-- The selector resolution shared by `queue_del` and `queue_forget`
(lines 331-337 and 363-369): the first truthy one of `imdb_id`, `tmdb_id`,
`title` determines the filter; with no selector the query is unfiltered. -/
def selPred (title imdb tmdb : Option String) (e : QueuedMovie) : Bool :=
  if imdb.isSome then e.imdb_id == imdb
  else if tmdb.isSome then e.tmdb_id == tmdb
  else if title.isSome then e.title == title
  else true

/-- `queue_del` (lines 318-347): `query.one()` then delete; `NoResultFound` and
`MultipleResultsFound` are both converted into `QueueError`s. -/
def queue_del (title imdb tmdb : Option String) (q : List QueuedMovie) :
    Except Err (Option String) × List QueuedMovie :=
  match q.filter (selPred title imdb tmdb) with
  | [] => (.error (.queueError .notFound), q)
  | [item] => (.ok item.title, q.eraseP (selPred title imdb tmdb))
  | _ => (.error (.queueError .multipleResults), q)

/-- `queue_forget` (lines 350-378): `query.one()`; a not-downloaded match
raises `QueueError`; on success only `item.downloaded` is set to `None`.
Only `NoResultFound` is caught — `MultipleResultsFound` escapes raw. -/
def queue_forget (title imdb tmdb : Option String) (q : List QueuedMovie) :
    Except Err (Option String) × List QueuedMovie :=
  match q.filter (selPred title imdb tmdb) with
  | [] => (.error (.queueError .notFound), q)
  | [item] =>
    if item.downloaded.isNone then (.error (.queueError .notDownloaded), q)
    else (.ok item.title,
      q.map fun e =>
        if selPred title imdb tmdb e then { e with downloaded := none } else e)
  | _ => (.error .multipleResultsFound, q)

/-- `queue_edit` (lines 381-397): the query filters on `imdb_id` only —
`QueuedMovie.imdb_id == imdb_id`, which with `imdb_id = None` is an `IS NULL`
filter; `tmdb_id` is never used in the query.  Only `NoResultFound` is caught. -/
def queue_edit (quality : Requirements) (imdb tmdb : Option String)
    (q : List QueuedMovie) :
    Except Err (Option String) × List QueuedMovie :=
  match q.filter (fun e => e.imdb_id == imdb) with
  | [] => (.error (.queueError .notFound), q)
  | [item] => (.ok item.title,
      q.map fun e => if e.imdb_id == imdb then { e with quality := quality } else e)
  | _ => (.error .multipleResultsFound, q)

/-- `queue_get` (lines 400-412): un-downloaded rows, or downloaded ones. -/
def queue_get (q : List QueuedMovie) (downloaded : Bool) : List QueuedMovie :=
  if !downloaded then q.filter fun e => e.downloaded.isNone
  else q.filter fun e => e.downloaded.isSome

/-- The identity condition list of `MovieQueue.matches` (lines 151-159): a
condition per external id the candidate carries. -/
def matchCond (imdb tmdb : Option String) (e : QueuedMovie) : Bool :=
  (imdb.isSome && e.imdb_id == imdb) || (tmdb.isSome && e.tmdb_id == tmdb)

/-- `MovieQueue.matches` (lines 151-169), after the candidate's ids have been
materialised: with no known id the candidate is unidentifiable; otherwise the
first un-downloaded row matching either id is fetched and returned iff its
stored requirement allows the candidate's quality. -/
def matchesQueue (q : List QueuedMovie) (imdb tmdb : Option String) (quality : Nat) :
    Option QueuedMovie :=
  if imdb.isNone && tmdb.isNone then none
  else
    match q.find? fun e => e.downloaded.isNone && matchCond imdb tmdb e with
    | some movie => if movie.quality.allows quality then some movie else none
    | none => none

/-- The response of `MovieQueueListAPI.get` (lines 462-495): the empty-queue
success body, the out-of-range 404, or a page with its movies, total count,
total page count and page number. -/
inductive ListResponse where
  | noMovies : ListResponse
  | pageNotFound : Nat → ListResponse
  | page : List QueuedMovie → Nat → Nat → Nat → ListResponse
deriving DecidableEq, Repr

/-- `MovieQueueListAPI.get` (lines 462-495): count, `ceil(count/max)` pages,
the out-of-range check, then the `[start, finish)` slice. -/
def movieQueueListAPI (q : List QueuedMovie) (page maxResults : Nat)
    (downloaded : Bool) : ListResponse :=
  let movie_queue := queue_get q downloaded
  let count := movie_queue.length
  if count = 0 then .noMovies
  else
    let pages := (count + maxResults - 1) / maxResults
    if page > pages then .pageNotFound page
    else
      let start := (page - 1) * maxResults
      let finish := min (start + maxResults) count
      .page ((movie_queue.drop start).take (finish - start)) count pages page

/-! Concrete sample stores used by witnesses and counterexamples. -/

/-- A lookup collaborator that always fails to resolve. -/
def noLookup : LookupFn := fun _ => none

/-- Row constructor with empty provenance. -/
def mkMovie (id : Nat) (title : Option String) (downloaded : Option Nat)
    (imdb tmdb : Option String) (quality : Requirements) : QueuedMovie :=
  ⟨id, title, downloaded, none, none, none, imdb, tmdb, quality⟩

def exQ1 : List QueuedMovie :=
  [mkMovie 1 (some "Alien") (some 10) (some "tt0078748") none .any]

def exQ2 : List QueuedMovie :=
  [mkMovie 1 (some "Alien") none (some "tt0078748") none .any]

def exQ8 : List QueuedMovie :=
  [mkMovie 1 (some "Brazil") none none (some "777") .any]

def exQ6 : List QueuedMovie :=
  [mkMovie 1 (some "Solaris") (some 5) none none .any,
   mkMovie 2 (some "Solaris") (some 7) none none .any]

/-- A satisfied row with recorded provenance. -/
def exQ5entry : QueuedMovie :=
  ⟨1, some "Alien", some 10, some "Alien.1979.1080p.mkv",
   some "http://example.com/alien", some "http://example.com/alien-orig",
   some "tt0078748", none, .any⟩

def exQ5 : List QueuedMovie := [exQ5entry]

def exQ7a : QueuedMovie := mkMovie 1 (some "Alien") none (some "tt0078748") none .any

def exQ7b : QueuedMovie := mkMovie 2 (some "Solaris") none none (some "500") .any

def exQ7 : List QueuedMovie := [exQ7a, exQ7b]

def exQ3a : QueuedMovie :=
  mkMovie 1 (some "Alien") none (some "tt0078748") none (.atLeast 720)

def exQ3b : QueuedMovie :=
  mkMovie 2 (some "Solaris") none none (some "500") .any

def exQ3 : List QueuedMovie := [exQ3a, exQ3b]

def exQ3w : List QueuedMovie :=
  [mkMovie 3 (some "Alien") none (some "tt0078748") none (.atLeast 720)]

def exQ9 : List QueuedMovie :=
  [mkMovie 1 (some "A") none none none .any,
   mkMovie 2 (some "B") none none none .any,
   mkMovie 3 (some "C") none none none .any,
   mkMovie 4 (some "D") none none none .any,
   mkMovie 5 (some "E") none none none .any]

end MovieQueue

namespace MovieQueue

/-- C1: in `exQ1` the only row carrying imdb id tt0078748 is downloaded, so no
un-downloaded row matches the resolved identity of the add — yet `queue_add`
fails with AlreadyDownloaded and leaves the store unchanged instead of
inserting a new WANTED row.  This refutes the claim that the dedup check of
add ranges only over un-downloaded entries. -/
theorem C1_counterexample :
    (exQ1.filter fun e => e.downloaded.isNone) = []
    ∧ queue_add noLookup 2 (some "Alien") (some "tt0078748") none none exQ1
        = (.error (.queueError .alreadyDownloaded), exQ1) := by
  exact ⟨rfl, rfl⟩

/-- C1 (amended): the dedup check of `queue_add` ranges over ALL rows,
downloaded ones included.  When the resolved identity matches no row at all,
add succeeds and appends a fresh WANTED row (`downloaded = none`) carrying the
resolved identity and the requested quality; when the first matching row is
downloaded, add fails with AlreadyDownloaded and the store is unchanged. -/
theorem C1_add_checks_all_rows (lookup : LookupFn) (nextId : Nat)
    (title imdb tmdb : Option String) (quality : Option Requirements)
    (q : List QueuedMovie) (ident : Identity)
    (hres : resolveAdd lookup title imdb tmdb = .ok ident) :
    ((∀ e ∈ q, addMatch ident.imdb_id ident.tmdb_id e = false) →
      queue_add lookup nextId title imdb tmdb quality q =
        (.ok (ident, quality.getD .any),
          q ++ [⟨nextId, ident.title, none, none, none, none,
                 ident.imdb_id, ident.tmdb_id, quality.getD .any⟩]))
    ∧ (∀ pre m post, q = pre ++ m :: post →
        (∀ e ∈ pre, addMatch ident.imdb_id ident.tmdb_id e = false) →
        addMatch ident.imdb_id ident.tmdb_id m = true →
        m.downloaded.isSome = true →
        queue_add lookup nextId title imdb tmdb quality q =
          (.error (.queueError .alreadyDownloaded), q)) := by
  constructor
  · intro hnone
    have hfind : q.find? (addMatch ident.imdb_id ident.tmdb_id) = none :=
      List.find?_eq_none.mpr fun x hx => by simp [hnone x hx]
    simp [queue_add, hres, hfind]
  · intro pre m post hq hpre hm hd
    have hfind : q.find? (addMatch ident.imdb_id ident.tmdb_id) = some m := by
      rw [List.find?_eq_some]
      exact ⟨hm, pre, post, hq, fun a ha => by simp [hpre a ha]⟩
    simp [queue_add, hres, hfind, hd]

/-- C1 witness: on the empty store an add with a complete identity succeeds
and appends the WANTED row. -/
theorem C1_witness :
    queue_add noLookup 1 (some "Alien") (some "tt0078748") none none []
      = (.ok (⟨some "Alien", some "tt0078748", none⟩, .any),
         [⟨1, some "Alien", none, none, none, none, some "tt0078748", none, .any⟩]) :=
  (C1_add_checks_all_rows noLookup 1 (some "Alien") (some "tt0078748") none none []
      ⟨some "Alien", some "tt0078748", none⟩ rfl).1 (by intro e he; cases he)

/-- C2: when the resolved identity of an add matches an existing row — the
first row agreeing on either external id — the add fails with AlreadyQueued if
that row is un-downloaded and AlreadyDownloaded if it is downloaded, and in
both cases the store is returned unchanged with no new row created. -/
theorem C2_add_conflict (lookup : LookupFn) (nextId : Nat)
    (title imdb tmdb : Option String) (quality : Option Requirements)
    (q : List QueuedMovie) (ident : Identity) (m : QueuedMovie)
    (hres : resolveAdd lookup title imdb tmdb = .ok ident)
    (hfind : q.find? (addMatch ident.imdb_id ident.tmdb_id) = some m) :
    queue_add lookup nextId title imdb tmdb quality q =
      (.error (.queueError
        (if m.downloaded.isSome then .alreadyDownloaded else .alreadyQueued)), q) := by
  by_cases hd : m.downloaded.isSome = true
  · simp [queue_add, hres, hfind, hd]
  · simp only [Bool.not_eq_true] at hd
    simp [queue_add, hres, hfind, hd]

/-- C2 witness: re-adding the identity of the WANTED row of `exQ2` fails with
AlreadyQueued and leaves the store unchanged. -/
theorem C2_witness :
    queue_add noLookup 2 (some "Alien") (some "tt0078748") none none exQ2
      = (.error (.queueError .alreadyQueued), exQ2) := by
  have h := C2_add_conflict noLookup 2 (some "Alien") (some "tt0078748") none none
    exQ2 ⟨some "Alien", some "tt0078748", none⟩
    (mkMovie 1 (some "Alien") none (some "tt0078748") none .any) rfl rfl
  exact h

/-- C4 (code bug): an add supplying only `tmdb_id` never reaches identity
resolution with that id: `queue_add` passes `imdb_id or title`, i.e. `None`, to
`parse_what`, whose `what.startswith` call raises `AttributeError` — whatever
the lookup collaborator would answer — and the store is unchanged.  The
supplied tmdb id is discarded. -/
theorem C4_tmdb_only_add_crashes (lookup : LookupFn) (nextId : Nat)
    (t : String) (quality : Option Requirements) (q : List QueuedMovie) :
    queue_add lookup nextId none none (some t) quality q
      = (.error .attributeError, q) := rfl

/-- C8 (code bug): `queue_edit` never consults `tmdb_id` — its query filters on
`imdb_id` alone, so the result is the same for every supplied tmdb id; and with
`imdb_id = None` the filter degenerates to `imdb_id IS NULL`: asked to edit the
entry with tmdb id 500, it edits the sole row of `exQ8`, whose tmdb id is 777,
instead of failing with NotFound. -/
theorem C8_edit_ignores_tmdb :
    (∀ (quality : Requirements) (imdb tmdb tmdb' : Option String)
        (q : List QueuedMovie),
      queue_edit quality imdb tmdb q = queue_edit quality imdb tmdb' q)
    ∧ queue_edit (.atLeast 720) none (some "500") exQ8
        = (.ok (some "Brazil"),
           [mkMovie 1 (some "Brazil") none none (some "777") (.atLeast 720)])
    ∧ exQ8.all (fun e => e.tmdb_id != some "500") = true := by
  exact ⟨fun quality imdb tmdb tmdb' q => rfl, rfl, rfl⟩

/-- C10: when the selected listing is empty, the API answers with the plain
no-movies success body — a constructor carrying no movie list, count or page
fields — for every page, page size and downloaded argument; and the
out-of-range error response is only ever produced when the listing is
non-empty. -/
theorem C10_empty_listing (q : List QueuedMovie) (page maxResults : Nat)
    (downloaded : Bool) :
    (queue_get q downloaded = [] →
      movieQueueListAPI q page maxResults downloaded = .noMovies)
    ∧ (∀ pg, movieQueueListAPI q page maxResults downloaded = .pageNotFound pg →
        queue_get q downloaded ≠ []) := by
  constructor
  · intro h
    simp [movieQueueListAPI, h]
  · intro pg h hempty
    rw [(by simp [movieQueueListAPI, hempty] :
      movieQueueListAPI q page maxResults downloaded = .noMovies)] at h
    cases h

/-- C10 witness: the empty store lists as the no-movies body. -/
theorem C10_witness : movieQueueListAPI [] 3 50 false = .noMovies :=
  (C10_empty_listing [] 3 50 false).1 rfl

/-- C6: forgetting by the title shared by the two rows of `exQ6` matches more
than one row, and the code fails with the raw MultipleResultsFound exception —
which is not the AmbiguousSelector `QueueError` the claim requires (`queue_del`
converts it; `queue_forget` does not catch it). -/
theorem C6_counterexample :
    queue_forget (some "Solaris") none none exQ6
      = (.error .multipleResultsFound, exQ6)
    ∧ Err.multipleResultsFound ≠ .queueError .multipleResults := by
  exact ⟨rfl, by decide⟩

/-- C6 (amended): forget fails with the NotFound `QueueError` when the selector
matches zero rows and with the NotDownloaded `QueueError` when the single
matched row is un-downloaded, but when several rows match it raises the store
layer's raw MultipleResultsFound exception rather than the AmbiguousSelector
`QueueError`; in every failure case the store is returned unchanged. -/
theorem C6_forget_errors (title imdb tmdb : Option String)
    (q : List QueuedMovie) :
    (q.filter (selPred title imdb tmdb) = [] →
      queue_forget title imdb tmdb q = (.error (.queueError .notFound), q))
    ∧ (∀ e, q.filter (selPred title imdb tmdb) = [e] → e.downloaded = none →
      queue_forget title imdb tmdb q = (.error (.queueError .notDownloaded), q))
    ∧ (∀ e e' rest, q.filter (selPred title imdb tmdb) = e :: e' :: rest →
      queue_forget title imdb tmdb q = (.error .multipleResultsFound, q)) := by
  refine ⟨fun h => ?_, fun e h hd => ?_, fun e e' rest h => ?_⟩
  · simp [queue_forget, h]
  · simp [queue_forget, h, hd]
  · simp [queue_forget, h]

/-- C6 witness: forgetting from the empty store fails with NotFound and leaves
the store empty; forgetting the WANTED row of `exQ2` fails with NotDownloaded
and leaves the store unchanged. -/
theorem C6_witness :
    queue_forget (some "Nothing") none none [] = (.error (.queueError .notFound), [])
    ∧ queue_forget none (some "tt0078748") none exQ2
        = (.error (.queueError .notDownloaded), exQ2) :=
  ⟨(C6_forget_errors (some "Nothing") none none []).1 rfl,
   (C6_forget_errors none (some "tt0078748") none exQ2).2.1
     (mkMovie 1 (some "Alien") none (some "tt0078748") none .any) rfl rfl⟩

/-- C5: forgetting the downloaded row of `exQ5` resets `downloaded` to null but
leaves the provenance fields populated — they are not cleared, refuting the
claim that forget clears provenance. -/
theorem C5_counterexample :
    queue_forget none (some "tt0078748") none exQ5
      = (.ok (some "Alien"), [{ exQ5entry with downloaded := none }])
    ∧ ({ exQ5entry with downloaded := none } : QueuedMovie).entry_title
        = some "Alien.1979.1080p.mkv"
    ∧ ({ exQ5entry with downloaded := none } : QueuedMovie).entry_url
        = some "http://example.com/alien"
    ∧ some "Alien.1979.1080p.mkv" ≠ (none : Option String) := by
  exact ⟨rfl, rfl, rfl, by decide⟩

/-- C5 (amended): a successful forget of the single matched, downloaded row
returns its title and rewrites the store so that every row keeps its title,
external ids, quality requirement and all three provenance fields unchanged;
only `downloaded` changes, becoming null exactly on the selected row. -/
theorem C5_forget_frame (title imdb tmdb : Option String)
    (q : List QueuedMovie) (e : QueuedMovie)
    (hone : q.filter (selPred title imdb tmdb) = [e])
    (hd : e.downloaded.isSome = true) :
    ∃ q', queue_forget title imdb tmdb q = (.ok e.title, q')
      ∧ q'.length = q.length
      ∧ ∀ i (hi : i < q.length) (hi' : i < q'.length),
          (q'.get ⟨i, hi'⟩).title = (q.get ⟨i, hi⟩).title
        ∧ (q'.get ⟨i, hi'⟩).imdb_id = (q.get ⟨i, hi⟩).imdb_id
        ∧ (q'.get ⟨i, hi'⟩).tmdb_id = (q.get ⟨i, hi⟩).tmdb_id
        ∧ (q'.get ⟨i, hi'⟩).quality = (q.get ⟨i, hi⟩).quality
        ∧ (q'.get ⟨i, hi'⟩).entry_title = (q.get ⟨i, hi⟩).entry_title
        ∧ (q'.get ⟨i, hi'⟩).entry_url = (q.get ⟨i, hi⟩).entry_url
        ∧ (q'.get ⟨i, hi'⟩).entry_original_url
            = (q.get ⟨i, hi⟩).entry_original_url
        ∧ (q'.get ⟨i, hi'⟩).downloaded
            = (if selPred title imdb tmdb (q.get ⟨i, hi⟩) then none
               else (q.get ⟨i, hi⟩).downloaded) := by
  have hnone : e.downloaded.isNone = false := by
    cases hde : e.downloaded with
    | none => rw [hde] at hd; cases hd
    | some v => rfl
  refine ⟨q.map fun x =>
      if selPred title imdb tmdb x then { x with downloaded := none } else x,
    ?_, by simp, ?_⟩
  · simp [queue_forget, hone, hnone]
  · intro i hi hi'
    have hget : ∀ j (hj : j < q.length) (hj' : j <
        (q.map fun x => if selPred title imdb tmdb x
          then { x with downloaded := none } else x).length),
        ((q.map fun x => if selPred title imdb tmdb x
          then { x with downloaded := none } else x).get ⟨j, hj'⟩)
          = if selPred title imdb tmdb (q.get ⟨j, hj⟩)
            then { q.get ⟨j, hj⟩ with downloaded := none } else q.get ⟨j, hj⟩ := by
      intro j hj hj'
      simp [List.get_eq_getElem, List.getElem_map]
    rw [hget i hi hi']
    simp only [List.get_eq_getElem]
    by_cases hp : selPred title imdb tmdb q[i] = true
    · simp [hp]
    · simp only [Bool.not_eq_true] at hp
      simp [hp]

/-- C5 witness: forgetting the downloaded row of `exQ5` succeeds, returning its
title with a store of unchanged length. -/
theorem C5_witness :
    ∃ q', queue_forget none (some "tt0078748") none exQ5
        = (.ok (some "Alien"), q') ∧ q'.length = 1 := by
  obtain ⟨q', h1, h2, _⟩ :=
    C5_forget_frame none (some "tt0078748") none exQ5 exQ5entry rfl rfl
  exact ⟨q', h1, h2⟩

/-- C7: the remove contract — the selector fields are tried in the priority
order imdb id, tmdb id, title, and the first present one alone fixes the lookup
predicate; zero matches fail with NotFound, a unique match deletes exactly the
matched row and returns its title, several matches fail with the
multiple-results `QueueError`; failures leave the store unchanged. -/
theorem C7_remove_contract (title imdb tmdb : Option String)
    (q : List QueuedMovie) :
    (∀ e, imdb.isSome = true →
      selPred title imdb tmdb e = (e.imdb_id == imdb))
    ∧ (∀ e, imdb = none → tmdb.isSome = true →
      selPred title imdb tmdb e = (e.tmdb_id == tmdb))
    ∧ (∀ e, imdb = none → tmdb = none → title.isSome = true →
      selPred title imdb tmdb e = (e.title == title))
    ∧ (q.filter (selPred title imdb tmdb) = [] →
        queue_del title imdb tmdb q = (.error (.queueError .notFound), q))
    ∧ (∀ pre e post, q = pre ++ e :: post →
        (∀ x ∈ pre, selPred title imdb tmdb x = false) →
        selPred title imdb tmdb e = true →
        (∀ x ∈ post, selPred title imdb tmdb x = false) →
        queue_del title imdb tmdb q = (.ok e.title, pre ++ post))
    ∧ (∀ e e' rest, q.filter (selPred title imdb tmdb) = e :: e' :: rest →
        queue_del title imdb tmdb q = (.error (.queueError .multipleResults), q)) := by
  refine ⟨fun e h => by simp [selPred, h], fun e h1 h2 => by simp [selPred, h1, h2],
    fun e h1 h2 h3 => by simp [selPred, h1, h2, h3],
    fun h => by simp [queue_del, h], ?_, fun e e' rest h => by simp [queue_del, h]⟩
  intro pre e post hq hpre he hpost
  have hfilter : q.filter (selPred title imdb tmdb) = [e] := by
    subst hq
    rw [List.filter_append]
    rw [List.filter_eq_nil_iff.mpr fun a ha => by simp [hpre a ha]]
    rw [List.filter_cons_of_pos he]
    rw [List.filter_eq_nil_iff.mpr fun a ha => by simp [hpost a ha]]
    rfl
  have herase : q.eraseP (selPred title imdb tmdb) = pre ++ post := by
    subst hq
    rw [List.eraseP_append_right _ fun b hb => by simp [hpre b hb]]
    rw [List.eraseP_cons_of_pos he]
  simp [queue_del, hfilter, herase]

/-- C7 witness: removing by imdb id from `exQ7` deletes exactly the matched
row and returns its title. -/
theorem C7_witness :
    queue_del none (some "tt0078748") none exQ7 = (.ok (some "Alien"), [exQ7b]) := by
  have h := (C7_remove_contract none (some "tt0078748") none exQ7).2.2.2.2.1
    [] exQ7a [exQ7b] rfl (by intro x hx; cases hx) rfl (by decide)
  exact h

/-- The row found by the matching engine's query is the first wanted id-match:
if `m` decomposes the store with no earlier wanted id-match, then the query
finds `m`. -/
theorem wanted_first_find (q : List QueuedMovie) (imdb tmdb : Option String)
    (m : QueuedMovie) (hdl : m.downloaded = none)
    (hcond : matchCond imdb tmdb m = true)
    (pre post : List QueuedMovie) (hq : q = pre ++ m :: post)
    (hpre : ∀ x ∈ pre, x.downloaded = none → matchCond imdb tmdb x = false) :
    q.find? (fun e => e.downloaded.isNone && matchCond imdb tmdb e) = some m := by
  rw [List.find?_eq_some]
  refine ⟨by simp [hdl, hcond], pre, post, hq, ?_⟩
  intro a ha
  by_cases had : a.downloaded = none
  · simp [had, hpre a ha had]
  · have hs : a.downloaded.isNone = false := by
      cases hda : a.downloaded with
      | none => exact absurd hda had
      | some v => rfl
    simp [hs]

/-- C3: against `exQ3`, the candidate (imdb tt0078748, tmdb 500, quality rank
480) has an un-downloaded entry agreeing on an external id whose requirement
allows its quality — `exQ3b`, via tmdb — yet the engine returns no match: the
first id-match `exQ3a` (via imdb) fails its 720p+ quality gate and the later
row is never considered.  This refutes the claim's there-exists reading. -/
theorem C3_counterexample :
    (exQ3b ∈ exQ3 ∧ exQ3b.downloaded = none
      ∧ matchCond (some "tt0078748") (some "500") exQ3b = true
      ∧ exQ3b.quality.allows 480 = true)
    ∧ matchesQueue exQ3 (some "tt0078748") (some "500") 480 = none := by
  exact ⟨⟨by simp [exQ3], rfl, rfl, rfl⟩, rfl⟩

/-- C3 (amended): for a candidate with at least one known external id, the
engine returns entry `m` iff `m` is un-downloaded, agrees with the candidate on
imdb id OR tmdb id, its stored requirement allows the candidate's quality, and
`m` is the FIRST such id-matching un-downloaded row of the store — if that
first id-match fails the quality gate, no entry is returned even when a later
row both matches and allows.  A candidate of unknown quality is evaluated at
the default quality rank, which the default `any` requirement accepts. -/
theorem C3_matches_first (q : List QueuedMovie) (imdb tmdb : Option String)
    (qual : Nat) (h : imdb.isSome = true ∨ tmdb.isSome = true) :
    (∀ m, matchesQueue q imdb tmdb qual = some m ↔
      (m.downloaded = none ∧ matchCond imdb tmdb m = true
        ∧ m.quality.allows qual = true
        ∧ ∃ pre post, q = pre ++ m :: post
            ∧ ∀ x ∈ pre, x.downloaded = none → matchCond imdb tmdb x = false))
    ∧ Requirements.any.allows defaultQuality = true := by
  have hguard : (imdb.isNone && tmdb.isNone) = false := by
    rcases h with h | h
    · cases imdb with
      | none => cases h
      | some v => rfl
    · cases tmdb with
      | none => cases h
      | some v => simp
  refine ⟨fun m => ?_, rfl⟩
  cases hfind : q.find? (fun e => e.downloaded.isNone && matchCond imdb tmdb e) with
  | none =>
    simp only [matchesQueue, hguard, Bool.false_eq_true, if_false, hfind]
    constructor
    · intro hcontra; cases hcontra
    · rintro ⟨hdl, hcond, hallow, pre, post, hq, hpre⟩
      have hmem : m ∈ q := by subst hq; simp
      have := List.find?_eq_none.mp hfind m hmem
      simp [hdl, hcond] at this
  | some movie =>
    simp only [matchesQueue, hguard, Bool.false_eq_true, if_false, hfind]
    by_cases hal : movie.quality.allows qual = true
    · rw [if_pos hal]
      constructor
      · intro hsome
        injection hsome with hmv
        subst hmv
        obtain ⟨hP, pre, post, hq, hpre⟩ := List.find?_eq_some.mp hfind
        rw [Bool.and_eq_true] at hP
        refine ⟨Option.isNone_iff_eq_none.mp hP.1, hP.2, hal, pre, post, hq, ?_⟩
        intro x hx hxd
        have hnx := hpre x hx
        simp only [Bool.not_eq_eq_eq_not, Bool.not_true, Bool.and_eq_false_iff] at hnx
        rcases hnx with hnx | hnx
        · rw [hxd] at hnx
          simp at hnx
        · exact hnx
      · rintro ⟨hdl, hcond, hallow, pre, post, hq, hpre⟩
        have h2 := wanted_first_find q imdb tmdb m hdl hcond pre post hq hpre
        rw [hfind] at h2
        injection h2 with h2
        rw [h2]
    · rw [if_neg hal]
      constructor
      · intro hcontra; cases hcontra
      · rintro ⟨hdl, hcond, hallow, pre, post, hq, hpre⟩
        have h2 := wanted_first_find q imdb tmdb m hdl hcond pre post hq hpre
        rw [hfind] at h2
        injection h2 with h2
        exact absurd (h2 ▸ hallow) hal

/-- C3 witness: a 1080-rank candidate matches the single 720p+ WANTED row of
`exQ3w` by imdb id. -/
theorem C3_witness :
    matchesQueue exQ3w (some "tt0078748") none 1080
      = some (mkMovie 3 (some "Alien") none (some "tt0078748") none (.atLeast 720)) :=
  ((C3_matches_first exQ3w (some "tt0078748") none 1080 (Or.inl rfl)).1 _).mpr
    ⟨rfl, rfl, by decide, [], [], rfl, by intro x hx; cases hx⟩

/-- Ceiling-division bounds used by the pagination theorem: the page count
`ceil(n/s)` covers all `n` entries and its last page is non-empty. -/
theorem ceilDiv_bounds (n s : Nat) (hs : 1 ≤ s) (hn : n ≠ 0) :
    n ≤ ((n + s - 1) / s) * s ∧ (((n + s - 1) / s) - 1) * s < n := by
  have hdm := Nat.div_add_mod (n + s - 1) s
  have hmod := Nat.mod_lt (n + s - 1) (show 0 < s from hs)
  have hsub : ((n + s - 1) / s - 1) * s = ((n + s - 1) / s) * s - s := by
    rw [Nat.sub_mul, Nat.one_mul]
  rw [hsub, Nat.mul_comm ((n + s - 1) / s) s]
  generalize (n + s - 1) / s = d at hdm ⊢
  generalize (n + s - 1) % s = r at hdm hmod
  generalize s * d = A at hdm ⊢
  omega

/-- C9: for a non-empty listing of `n` entries with page size `s ≥ 1`, the
reported page count `ceil(n/s)` covers all entries with a non-empty last page;
every requested page strictly beyond it yields the explicit out-of-range
error response; and every valid page `1 ≤ page ≤ pages` returns exactly the
slice from index `(page-1)*s` up to `min(page*s, n)`, together with the count,
page count and page number. -/
theorem C9_pagination (q : List QueuedMovie) (page s : Nat) (downloaded : Bool)
    (hs : 1 ≤ s) (hp : 1 ≤ page) (hne : queue_get q downloaded ≠ []) :
    ((queue_get q downloaded).length
        ≤ (((queue_get q downloaded).length + s - 1) / s) * s
      ∧ ((((queue_get q downloaded).length + s - 1) / s) - 1) * s
          < (queue_get q downloaded).length)
    ∧ (page > ((queue_get q downloaded).length + s - 1) / s →
        movieQueueListAPI q page s downloaded = .pageNotFound page)
    ∧ (page ≤ ((queue_get q downloaded).length + s - 1) / s →
        movieQueueListAPI q page s downloaded =
          .page (((queue_get q downloaded).drop ((page - 1) * s)).take
              (min (page * s) (queue_get q downloaded).length - (page - 1) * s))
            (queue_get q downloaded).length
            (((queue_get q downloaded).length + s - 1) / s) page) := by
  have hn0 : (queue_get q downloaded).length ≠ 0 := by
    simpa [List.length_eq_zero] using hne
  refine ⟨ceilDiv_bounds _ s hs hn0, fun hgt => ?_, fun hle => ?_⟩
  · simp only [movieQueueListAPI]
    rw [if_neg hn0, if_pos hgt]
  · have h1s : s ≤ page * s := by
      calc s = 1 * s := (Nat.one_mul s).symm
      _ ≤ page * s := Nat.mul_le_mul_right s hp
    have hps : (page - 1) * s + s = page * s := by
      rw [Nat.sub_mul, Nat.one_mul, Nat.sub_add_cancel h1s]
    simp only [movieQueueListAPI]
    rw [if_neg hn0, if_neg (by omega :
      ¬ page > ((queue_get q downloaded).length + s - 1) / s), hps]

/-- C9 witness: five WANTED entries at page size 2 make three pages — page 4
answers the out-of-range error and page 2 holds the third and fourth entries. -/
theorem C9_witness :
    movieQueueListAPI exQ9 4 2 false = .pageNotFound 4
    ∧ movieQueueListAPI exQ9 2 2 false
        = .page [mkMovie 3 (some "C") none none none .any,
                 mkMovie 4 (some "D") none none none .any] 5 3 2 := by
  constructor
  · exact (C9_pagination exQ9 4 2 false (by decide) (by decide)
      (by decide)).2.1 (by decide)
  · exact (C9_pagination exQ9 2 2 false (by decide) (by decide)
      (by decide)).2.2 (by decide)

end MovieQueue
